import Mathlib

/-!
Verification of the clusternator resource-orchestration engine.

This file gives a shallow embedding, in Lean 4, of the orchestration code in
`src/aws` (subnetManager.js, ec2Manager.js, deploymentManager.js,
projectManager.js) and settles the behavioural claims about it.

Modelling conventions used throughout:

* JavaScript promise chains are embedded as sequential Lean computations;
  a rejected promise is an `Except.error`, a resolved one an `Except.ok`.
  A `.then(onSuccess)` step that is skipped because the incoming promise is
  rejected is modelled by `Except` bind; a `.fail(...)` handler is an explicit
  `match`/recover.
* JavaScript machine numbers are modelled as `Nat`/`Int`; the coercion of a
  string to a number (unary plus, or a `>` comparison against a number) is
  modelled by `jsNum` below, with `none` playing the role of `NaN`.
* Dotted strings (CIDR blocks) are represented by their lists of
  dot-separated components, since the source splits them on the dot character
  immediately; a component never contains a dot, so split/join is the
  identity on this representation.
-/

/-! ## JavaScript numeric strings

The subnet allocator turns CIDR components into numbers with the unary `+`
operator and turns numbers back into strings by concatenation.  We model the
decimal fragment of those coercions: a string of decimal digits denotes the
obvious natural number, the empty string denotes `0` (as in JavaScript), and
every other string is `NaN` (`none`).  `natToStr` is the decimal printer used
to model JavaScript number-to-string coercion of a nonnegative integer. -/

def digitVal (c : Char) : Option Nat :=
  if 48 ≤ c.toNat ∧ c.toNat ≤ 57 then some (c.toNat - 48) else none

def parseNatCore : List Char → Nat → Option Nat
  | [], acc => some acc
  | c :: cs, acc =>
    match digitVal c with
    | some d => parseNatCore cs (10 * acc + d)
    | none => none

/-- JavaScript numeric coercion of a string, restricted to nonnegative decimal
numerals (which is all this code ever produces): digit strings parse to their
value, the empty string parses to `0`, anything else is `NaN` (`none`). -/
def jsNum (s : String) : Option Nat :=
  if s.toList = [] then some 0 else parseNatCore s.toList 0

def digitChar (d : Nat) : Char := Char.ofNat (48 + d)

def natToStrCore (n : Nat) (acc : List Char) : List Char :=
  if h : n = 0 then acc
  else natToStrCore (n / 10) (digitChar (n % 10) :: acc)
termination_by n
decreasing_by exact Nat.div_lt_self (Nat.pos_of_ne_zero h) (by decide)

/-- Decimal printer modelling JavaScript number-to-string coercion of a
nonnegative integer. -/
def natToStr (n : Nat) : String :=
  if n = 0 then "0" else String.mk (natToStrCore n [])

theorem digitVal_digitChar : ∀ d : Nat, d < 10 → digitVal (digitChar d) = some d := by
  decide

theorem natToStrCore_ne_nil (n : Nat) (h : n ≠ 0) (acc : List Char) :
    natToStrCore n acc ≠ [] := by
  induction n using Nat.strong_induction_on generalizing acc with
  | _ n ih =>
    rw [natToStrCore]
    simp only [h, dite_false]
    by_cases h10 : n / 10 = 0
    · rw [natToStrCore]
      simp [h10]
    · exact ih (n / 10) (Nat.div_lt_self (Nat.pos_of_ne_zero h) (by decide)) h10 _

theorem parseNatCore_natToStrCore (n : Nat) (h : n ≠ 0) :
    ∀ acc a, ∃ k, 0 < k ∧
      parseNatCore (natToStrCore n acc) a = parseNatCore acc (a * 10 ^ k + n) ∧
      n < 10 ^ k := by
  induction n using Nat.strong_induction_on with
  | _ n ih =>
    intro acc a
    rw [natToStrCore]
    simp only [h, dite_false]
    by_cases h10 : n / 10 = 0
    · have hn10 : n < 10 := by omega
      rw [natToStrCore]
      simp only [h10, dite_true]
      refine ⟨1, by decide, ?_, by simpa using hn10⟩
      have hd : digitVal (digitChar (n % 10)) = some (n % 10) :=
        digitVal_digitChar _ (Nat.mod_lt _ (by decide))
      simp only [parseNatCore, hd]
      have : n % 10 = n := Nat.mod_eq_of_lt hn10
      rw [this]
      ring_nf
    · obtain ⟨k, hk, heq, hlt⟩ :=
        ih (n / 10) (Nat.div_lt_self (Nat.pos_of_ne_zero h) (by decide)) h10
          (digitChar (n % 10) :: acc) a
      refine ⟨k + 1, Nat.succ_pos _, ?_, ?_⟩
      · rw [heq]
        have hd : digitVal (digitChar (n % 10)) = some (n % 10) :=
          digitVal_digitChar _ (Nat.mod_lt _ (by decide))
        simp only [parseNatCore, hd]
        congr 1
        have hmod := Nat.div_add_mod n 10
        ring_nf
        omega
      · have := Nat.lt_succ_of_lt hlt
        have hstep : n < 10 * (n / 10) + 10 := by
          have := Nat.div_add_mod n 10
          have := Nat.mod_lt n (show 0 < 10 by decide)
          omega
        calc n < 10 * (n / 10) + 10 := hstep
        _ ≤ 10 * (10 ^ k - 1) + 10 := by
              have : n / 10 ≤ 10 ^ k - 1 := by omega
              omega
        _ ≤ 10 ^ (k + 1) := by
              have : 1 ≤ 10 ^ k := Nat.one_le_pow _ _ (by decide)
              rw [pow_succ]
              omega

theorem toList_mk (l : List Char) : (String.mk l).toList = l := rfl

/-- Round trip: the decimal printer and the JavaScript numeric coercion agree. -/
theorem jsNum_natToStr (n : Nat) : jsNum (natToStr n) = some n := by
  by_cases h : n = 0
  · subst h; decide
  · unfold natToStr
    simp only [h, ite_false]
    unfold jsNum
    rw [toList_mk]
    have hne := natToStrCore_ne_nil n h []
    simp only [hne, ite_false]
    obtain ⟨k, _, heq, _⟩ := parseNatCore_natToStrCore n h [] 0
    rw [heq]
    simp [parseNatCore]

/-! ## Tags and resource descriptions

The provider represents resources as records carrying a `Tags` list of
key/value pairs.  A JavaScript object built from such a list by
`R.reduce(R.assoc)` is modelled by `tagObjGet`: the value of the last pair
with the given key (later assignments overwrite earlier ones), `none` when no
pair has the key (a missing JavaScript property reads as `undefined`). -/

structure Tag where
  Key : String
  Value : String
deriving DecidableEq, Repr

/-- Lookup in the object built by folding a tag list with `R.assoc`. -/
def tagObjGet (tags : List Tag) (k : String) : Option String :=
  tags.foldl (fun acc t => if t.Key = k then some t.Value else acc) none

/-- Tag keys used as the on-provider state schema (src/constants; the file is
not under src, only distinctness of the keys matters to the claims). -/
def PROJECT_TAG : String := "proj"

def PR_TAG : String := "pr"

def DEPLOYMENT_TAG : String := "deployment"

def EXPIRES_TAG : String := "expires"

def CLUSTERNATOR_TAG : String := "clusternator"

/-! ## Address allocator (src/aws/subnetManager.js)

A subnet description is read by `findHighestCidr` through its `CidrBlock`
field only.  Per the conventions above, `CidrBlock` holds the list of
dot-separated components of the CIDR string — the source splits the string on
dots as its first step, and joins components back with dots, so the
representation is exact. -/

structure SubnetDesc where
  CidrBlock : List String
  Tags : List Tag
deriving DecidableEq, Repr

/-- Third octet as the source reads it: split on dots (already done by the
representation), `pop` the last component, `pop` again, coerce with unary `+`.
`none` models `NaN` (popping past the front, or a non-numeric component). -/
def cidrThirdOctet (cidr : List String) : Option Nat :=
  match cidr.dropLast.getLast? with
  | some c => jsNum c
  | none => none

/-- Embedding of `findHighestCidr` (subnetManager.js lines 30-43): fold over
the subnet list keeping the largest third octet seen, starting at `-1`; a
`NaN` comparison is false, so a non-numeric component leaves the accumulator
unchanged. -/
def findHighestCidr (list : List SubnetDesc) : Int :=
  list.foldl
    (fun highest r =>
      match cidrThirdOctet r.CidrBlock with
      | some c => if (c : Int) > highest then (c : Int) else highest
      | none => highest)
    (-1)

/-- Embedding of `incrementHighestCidr` (lines 45-49): the components of the
string `(highest + 1) + ".0/24"`.  `findHighestCidr` is at least `-1`
(theorem `findHighestCidr_ge`), so `highest + 1` is a nonnegative number and
its JavaScript string form is `natToStr` of its absolute value. -/
def incrementHighestCidr (list : List SubnetDesc) : List String :=
  [natToStr (findHighestCidr list + 1).toNat, "0/24"]

/-- Embedding of `getNextSubnet` (lines 55-62): the project CIDR prefix
(components of `util.getCidrPrefixFromIPString` of the VPC block, passed here
as a parameter) joined by a dot to the postfix. -/
def getNextSubnet (pre : List String) (list : List SubnetDesc) : List String :=
  pre ++ incrementHighestCidr list

/-- Allocating repeatedly: each allocation computes the next subnet over the
current subnet list and the new subnet is tagged, i.e. appears in the next
describe result. -/
def allocN (pre : List String) (list : List SubnetDesc) : Nat → List (List String)
  | 0 => []
  | n + 1 =>
    let cidr := getNextSubnet pre list
    cidr :: allocN pre (⟨cidr, [⟨CLUSTERNATOR_TAG, "true"⟩]⟩ :: list) n

/-- The max-flavoured form of the fold step of `findHighestCidr`. -/
def octMax (h : Int) (r : SubnetDesc) : Int :=
  match cidrThirdOctet r.CidrBlock with
  | some c => max h (c : Int)
  | none => h

theorem findHighestCidr_foldl_octMax (list : List SubnetDesc) :
    ∀ init : Int, list.foldl
      (fun highest r =>
        match cidrThirdOctet r.CidrBlock with
        | some c => if (c : Int) > highest then (c : Int) else highest
        | none => highest) init = list.foldl octMax init := by
  induction list with
  | nil => intro init; rfl
  | cons d rest ih =>
    intro init
    simp only [List.foldl_cons]
    have hstep :
        (match cidrThirdOctet d.CidrBlock with
          | some c => if (c : Int) > init then (c : Int) else init
          | none => init) = octMax init d := by
      unfold octMax
      cases cidrThirdOctet d.CidrBlock with
      | none => rfl
      | some c =>
        simp only
        by_cases hc : (c : Int) > init
        · simp [hc, max_eq_right (le_of_lt hc)]
        · simp [hc, max_eq_left (not_lt.mp hc)]
    rw [hstep, ih]

theorem foldl_octMax_init (list : List SubnetDesc) :
    ∀ a b : Int, list.foldl octMax (max a b) = max a (list.foldl octMax b) := by
  induction list with
  | nil => intro a b; rfl
  | cons d rest ih =>
    intro a b
    simp only [List.foldl_cons]
    have : octMax (max a b) d = max a (octMax b d) := by
      unfold octMax
      cases cidrThirdOctet d.CidrBlock with
      | none => rfl
      | some c => simp [max_assoc]
    rw [this, ih]

theorem findHighestCidr_ge (list : List SubnetDesc) : -1 ≤ findHighestCidr list := by
  unfold findHighestCidr
  rw [findHighestCidr_foldl_octMax]
  have h : (-1 : Int) = max (-1) (-1) := by simp
  calc (-1 : Int) ≤ max (-1 : Int) (list.foldl octMax (-1)) := le_max_left _ _
  _ = list.foldl octMax (max (-1) (-1)) := (foldl_octMax_init list (-1) (-1)).symm
  _ = list.foldl octMax (-1) := by simp

theorem le_findHighestCidr (list : List SubnetDesc) (d : SubnetDesc)
    (hd : d ∈ list) (c : Nat) (hc : cidrThirdOctet d.CidrBlock = some c) :
    (c : Int) ≤ findHighestCidr list := by
  unfold findHighestCidr
  rw [findHighestCidr_foldl_octMax]
  induction list with
  | nil => cases hd
  | cons x rest ih =>
    simp only [List.foldl_cons]
    rcases List.mem_cons.mp hd with hx | hrest
    · have hoct : octMax (-1) x = max (-1) (c : Int) := by
        unfold octMax; rw [← hx, hc]
      rw [hoct]
      have h1 : max (-1) (c : Int) = max (c : Int) (-1) := max_comm _ _
      rw [h1, foldl_octMax_init rest (c : Int) (-1)]
      exact le_max_left _ _
    · have hmax : octMax (-1) x = max (octMax (-1) x) (-1) := by
        have : (-1 : Int) ≤ octMax (-1) x := by
          unfold octMax
          cases cidrThirdOctet x.CidrBlock with
          | none => simp
          | some c2 => exact le_max_left _ _
        exact (max_eq_left this).symm
      rw [hmax, foldl_octMax_init rest (octMax (-1) x) (-1)]
      exact le_trans (ih hrest) (le_max_right _ _)

theorem cidrThirdOctet_getNextSubnet (pre : List String) (list : List SubnetDesc) :
    cidrThirdOctet (getNextSubnet pre list) =
      some (findHighestCidr list + 1).toNat := by
  unfold getNextSubnet incrementHighestCidr cidrThirdOctet
  have hdrop : (pre ++ [natToStr (findHighestCidr list + 1).toNat, "0/24"]).dropLast
      = pre ++ [natToStr (findHighestCidr list + 1).toNat] := by
    have : pre ++ [natToStr (findHighestCidr list + 1).toNat, "0/24"]
        = (pre ++ [natToStr (findHighestCidr list + 1).toNat]) ++ ["0/24"] := by
      simp
    rw [this, List.dropLast_concat]
  rw [hdrop]
  simp [jsNum_natToStr]

theorem findHighestCidr_cons_next (pre : List String) (list : List SubnetDesc)
    (tags : List Tag) :
    findHighestCidr (⟨getNextSubnet pre list, tags⟩ :: list)
      = findHighestCidr list + 1 := by
  have hge := findHighestCidr_ge list
  unfold findHighestCidr
  rw [findHighestCidr_foldl_octMax, findHighestCidr_foldl_octMax]
  simp only [List.foldl_cons]
  have hoct : octMax (-1) ⟨getNextSubnet pre list, tags⟩
      = ((findHighestCidr list + 1).toNat : Int) := by
    unfold octMax
    simp only [cidrThirdOctet_getNextSubnet]
    have : (-1 : Int) ≤ ((findHighestCidr list + 1).toNat : Int) := by
      have := Int.natCast_nonneg (findHighestCidr list + 1).toNat
      omega
    exact max_eq_right this
  rw [hoct]
  have htn : ((findHighestCidr list + 1).toNat : Int) = findHighestCidr list + 1 := by
    exact Int.toNat_of_nonneg (by omega)
  rw [htn]
  have hsplit : findHighestCidr list + 1 = max (findHighestCidr list + 1) (-1) := by
    omega
  rw [hsplit, foldl_octMax_init list (findHighestCidr list + 1) (-1)]
  have : list.foldl octMax (-1) = findHighestCidr list := by
    unfold findHighestCidr; rw [findHighestCidr_foldl_octMax]
  rw [this]
  omega

theorem allocN_octets (pre : List String) :
    ∀ (n : Nat) (list : List SubnetDesc),
      (allocN pre list n).map cidrThirdOctet
        = (List.range n).map
            (fun i : Nat => some (findHighestCidr list + 1 + (i : Int)).toNat) := by
  intro n
  induction n with
  | zero => intro list; rfl
  | succ m ih =>
    intro list
    show (getNextSubnet pre list ::
        allocN pre (⟨getNextSubnet pre list, [⟨CLUSTERNATOR_TAG, "true"⟩]⟩ :: list) m).map
          cidrThirdOctet = _
    rw [List.map_cons, cidrThirdOctet_getNextSubnet, ih, findHighestCidr_cons_next,
      List.range_succ_eq_map, List.map_cons, List.map_map]
    refine congrArg₂ List.cons (by norm_num) ?_
    apply List.map_congr_left
    intro i _
    simp only [Function.comp_apply]
    congr 2
    omega

/-- C1: for every set of currently tagged subnets, `getNextSubnet` returns a
`/24` CIDR whose third octet is one greater than the maximum third octet in
use (hence strictly greater than every third octet in use); when no tagged
subnets exist the third octet is `0`; and allocating `N` times in sequence,
re-tagging after each, yields `N` pairwise-distinct `/24` blocks (their third
octets are `max+1, max+2, ...`, so no two blocks coincide or overlap). -/
theorem getNextSubnet_thirdOctet_correct (pre : List String)
    (list : List SubnetDesc) (N : Nat) :
    cidrThirdOctet (getNextSubnet pre list) = some (findHighestCidr list + 1).toNat
    ∧ (list = [] → cidrThirdOctet (getNextSubnet pre list) = some 0)
    ∧ (∀ d ∈ list, ∀ c : Nat, cidrThirdOctet d.CidrBlock = some c →
        c < (findHighestCidr list + 1).toNat)
    ∧ (getNextSubnet pre list).getLast? = some "0/24"
    ∧ (allocN pre list N).length = N
    ∧ (allocN pre list N).Nodup := by
  refine ⟨cidrThirdOctet_getNextSubnet pre list, ?_, ?_, ?_, ?_, ?_⟩
  · intro h
    subst h
    rw [cidrThirdOctet_getNextSubnet]
    rfl
  · intro d hd c hc
    have hle := le_findHighestCidr list d hd c hc
    omega
  · unfold getNextSubnet incrementHighestCidr
    simp
  · have h := congrArg List.length (allocN_octets pre N list)
    simpa using h
  · have hmap : ((allocN pre list N).map cidrThirdOctet).Nodup := by
      rw [allocN_octets]
      refine List.Nodup.map_on ?_ (List.nodup_range N)
      intro i _ j _ hfe
      have hge := findHighestCidr_ge list
      simp only [Option.some_inj] at hfe
      omega
    exact hmap.of_map

/-- Closed witness for C1, at the spec's shape of data: one tagged subnet
`10.0.3.0/24`; its octet `3` is in use and strictly below the next octet. -/
theorem getNextSubnet_thirdOctet_correct_witness :
    (⟨["10", "0", "3", "0/24"], []⟩ : SubnetDesc) ∈
        [(⟨["10", "0", "3", "0/24"], []⟩ : SubnetDesc)]
      ∧ cidrThirdOctet (["10", "0", "3", "0/24"] : List String) = some 3
      ∧ (3 : Nat) < (findHighestCidr [⟨["10", "0", "3", "0/24"], []⟩] + 1).toNat := by
  refine ⟨by decide, by decide, ?_⟩
  exact (getNextSubnet_thirdOctet_correct ["10", "0"]
      [⟨["10", "0", "3", "0/24"], []⟩] 1).2.2.1
    ⟨["10", "0", "3", "0/24"], []⟩ (by decide) 3 (by decide)

/-! ## Instance lifecycle manager (src/aws/ec2Manager.js)

Configuration objects reach `createPr`/`createDeployment` as JavaScript
objects; a field can be missing (`undefined`), a string, or a number.
Required-field validation tests JavaScript truthiness of `config[attr]`. -/

inductive JsVal
  | undef
  | str (s : String)
  | num (n : Int)
deriving DecidableEq, Repr

/-- JavaScript truthiness: `undefined`, the empty string and `0` are falsy. -/
def JsVal.truthy : JsVal → Bool
  | .undef => false
  | .str s => s != ""
  | .num n => n != 0

/-- The configuration fields read by the validators (remaining fields of the
source config — auth, apiConfig, sshPath — are modelled where used). -/
structure Ec2Config where
  clusterName : JsVal
  sgId : JsVal
  subnetId : JsVal
  pid : JsVal
  pr : JsVal
  deployment : JsVal
deriving DecidableEq, Repr

/-- JavaScript property read `config[attr]` for the attribute names the
validators iterate over. -/
def Ec2Config.get (c : Ec2Config) : String → JsVal
  | "clusterName" => c.clusterName
  | "sgId" => c.sgId
  | "subnetId" => c.subnetId
  | "pid" => c.pid
  | "pr" => c.pr
  | "deployment" => c.deployment
  | _ => .undef

def configAttributes : List String := ["clusterName", "sgId", "subnetId", "pid"]

def prConfigAttributes : List String := configAttributes ++ ["pr"]

def deploymentConfigAttributes : List String := configAttributes ++ ["deployment"]

/-- Embedding of `validateCreatePrConfig` (ec2Manager.js lines 333-341):
`forEach` with a `throw` stops at the first falsy attribute, i.e. the first
attribute for which the truthiness test fails; `createPr` (line 366) runs this
synchronously before any provider call, so an error here rejects the call. -/
def validateCreatePrConfig (config : Option Ec2Config) : Except String Unit :=
  match config with
  | none => .error "This function requires a configuration object"
  | some c =>
    match prConfigAttributes.find? (fun attr => !(c.get attr).truthy) with
    | some attr => .error ("Instance requires " ++ attr)
    | none => .ok ()

/-- Embedding of `validateCreateDeploymentConfig` (lines 317-325). -/
def validateCreateDeploymentConfig (config : Option Ec2Config) : Except String Unit :=
  match config with
  | none => .error "This function requires a configuration object"
  | some c =>
    match deploymentConfigAttributes.find? (fun attr => !(c.get attr).truthy) with
    | some attr => .error ("Instance requires " ++ attr)
    | none => .ok ()

/-- A configuration carrying every base field plus BOTH a `pr` number and a
`deployment` name. -/
def bothIdsConfig : Ec2Config :=
  ⟨.str "c1", .str "sg-1", .str "sn-1", .str "proj", .num 7, .str "master"⟩

/-- C8 counterexample: the claim says supplying both `pr` and `deploymentName`
is rejected, but the validators never examine the other call's identifier:
a configuration carrying both passes `validateCreatePrConfig` and
`validateCreateDeploymentConfig` unchanged. -/
theorem validateConfig_bothIds_accepted :
    validateCreatePrConfig (some bothIdsConfig) = .ok ()
    ∧ validateCreateDeploymentConfig (some bothIdsConfig) = .ok () := by
  constructor <;> rfl

/-- C8 (amended): `createPr`'s validation requires `clusterName`, `sgId`,
`subnetId`, `pid` and `pr` to be truthy and fails with a `TypeError` naming
the first falsy field in that order; `createDeployment` analogously with
`deployment` in place of `pr`.  The other call's identifier is never
examined, so "both present" passes and a present-but-falsy identifier fails. -/
theorem validateConfig_firstMissing (c : Ec2Config) :
    (validateCreatePrConfig (some c) = .ok ()
      ↔ (c.clusterName.truthy ∧ c.sgId.truthy ∧ c.subnetId.truthy
          ∧ c.pid.truthy ∧ c.pr.truthy))
    ∧ (validateCreateDeploymentConfig (some c) = .ok ()
      ↔ (c.clusterName.truthy ∧ c.sgId.truthy ∧ c.subnetId.truthy
          ∧ c.pid.truthy ∧ c.deployment.truthy))
    ∧ (¬ c.clusterName.truthy →
        validateCreatePrConfig (some c) = .error "Instance requires clusterName")
    ∧ (c.clusterName.truthy → ¬ c.sgId.truthy →
        validateCreatePrConfig (some c) = .error "Instance requires sgId")
    ∧ (c.clusterName.truthy → c.sgId.truthy → ¬ c.subnetId.truthy →
        validateCreatePrConfig (some c) = .error "Instance requires subnetId")
    ∧ (c.clusterName.truthy → c.sgId.truthy → c.subnetId.truthy → ¬ c.pid.truthy →
        validateCreatePrConfig (some c) = .error "Instance requires pid")
    ∧ (c.clusterName.truthy → c.sgId.truthy → c.subnetId.truthy → c.pid.truthy →
        ¬ c.pr.truthy →
        validateCreatePrConfig (some c) = .error "Instance requires pr")
    ∧ (c.clusterName.truthy → c.sgId.truthy → c.subnetId.truthy → c.pid.truthy →
        ¬ c.deployment.truthy →
        validateCreateDeploymentConfig (some c) = .error "Instance requires deployment") := by
  cases h1 : c.clusterName.truthy <;> cases h2 : c.sgId.truthy <;>
    cases h3 : c.subnetId.truthy <;> cases h4 : c.pid.truthy <;>
    cases h5 : c.pr.truthy <;> cases h6 : c.deployment.truthy <;>
    simp_all [validateCreatePrConfig, validateCreateDeploymentConfig,
      prConfigAttributes, deploymentConfigAttributes, configAttributes,
      List.find?, Ec2Config.get]

/-- Witness for C8's amended theorem at a concrete configuration missing only
`pr`. -/
theorem validateConfig_firstMissing_witness :
    validateCreatePrConfig
        (some ⟨.str "c1", .str "sg-1", .str "sn-1", .str "proj", .undef, .str "master"⟩)
      = .error "Instance requires pr" :=
  (validateConfig_firstMissing
      ⟨.str "c1", .str "sg-1", .str "sn-1", .str "proj", .undef, .str "master"⟩).2.2.2.2.2.2.1
    (by decide) (by decide) (by decide) (by decide) (by decide)

/-- C10: a configuration whose `pr` field is the number `0` — a valid PR
identifier in the data model — is rejected by `createPr`'s validation with a
`TypeError` naming `pr`, because the required-field check tests truthiness
(`config[attr]` falsy) rather than presence, and the number `0` is falsy. -/
theorem createPr_rejects_pr_zero (c : Ec2Config)
    (hcl : c.clusterName.truthy) (hsg : c.sgId.truthy) (hsn : c.subnetId.truthy)
    (hpid : c.pid.truthy) (hpr : c.pr = .num 0) :
    validateCreatePrConfig (some c) = .error "Instance requires pr" := by
  have hf : ¬ c.pr.truthy := by
    rw [hpr]
    decide
  exact (validateConfig_firstMissing c).2.2.2.2.2.2.1 hcl hsg hsn hpid hf

/-! ### Bootstrap user-data script assembly (ec2Manager.js lines 8-176) -/

def SETUP_SSH : String := "mkdir -p /home/ec2-user/.ssh"

def CHOWN_SSH : String :=
  "chown -R ec2-user:ec2-user /home/ec2-user/.ssh && chmod -R go-rwx /home/ec2-user/.ssh"

def OUTPUT_SSH : String := ">> /home/ec2-user/.ssh/authorized_keys"

/-- Embedding of `processSSHKeys` (lines 108-115): an empty key list yields no
directives; otherwise the key-append directives (one per key, each an `echo`
of the key into `authorized_keys`) are bracketed by the `mkdir` setup
directive and the `chown` directive. -/
def processSSHKeys (keys : List String) : List String :=
  if keys.length = 0 then []
  else SETUP_SSH ::
    (keys.map (fun key => "echo \"\n" ++ key ++ "\" " ++ OUTPUT_SSH) ++ [CHOWN_SSH])

/-- Registry credential object as passed for `auth`: either an opaque
`cfg` blob or a username/password/email triple (absent fields read as the
empty string, which is falsy). -/
structure DockerAuthObj where
  cfg : Option String
  username : String
  password : String
  email : String
deriving DecidableEq, Repr

def makeDockerAuthType (authType : String) : String :=
  "echo ECS_ENGINE_AUTH_TYPE=" ++ authType ++ " >> /etc/ecs/ecs.config;"

def makeDockerAuthData (data : String) : String :=
  "echo ECS_ENGINE_AUTH_DATA=" ++ data ++ " >> /etc/ecs/ecs.config;"

/-- Embedding of `makeDockerAuthCfg` (lines 68-77). -/
def makeDockerAuthCfg (cfg : String) : Except String (List String) :=
  if cfg = "" then .error "Clusternator Ec2: makeDockerAuthCfg requires a param"
  else .ok [makeDockerAuthType "dockercfg", makeDockerAuthData cfg]

/-- The `JSON.stringify` of the auth JSON built by `makeDockerAuth`
(insertion order username, password, email). -/
def jsonAuthBlob (auth : DockerAuthObj) : String :=
  "\x7b\"https://index.docker.io/v1/user\":\x7b\"username\":\"" ++ auth.username ++
    "\",\"password\":\"" ++ auth.password ++ "\",\"email\":\"" ++ auth.email ++
    "\"\x7d\x7d"

/-- Embedding of `makeDockerAuth` (lines 86-102). -/
def makeDockerAuth (auth : DockerAuthObj) : Except String (List String) :=
  if auth.username = "" ∨ auth.password = "" ∨ auth.email = "" then
    .error "Clusternator: Ec2: Auth should contain a username, password, and email"
  else .ok [makeDockerAuthType "docker", makeDockerAuthData (jsonAuthBlob auth)]

def base64Chars : List Char :=
  "ABCDEFGHIJKLMNOPQRSTUVWXYZabcdefghijklmnopqrstuvwxyz0123456789+/".toList

def base64Digit (n : Nat) : Char := base64Chars.getD n '?'

/-- Standard base64 of a byte list (the encoding `Buffer.toString('base64')`
performs), 3 bytes to 4 alphabet characters, `=`-padded. -/
def base64EncodeBytes : List Nat → List Char
  | [] => []
  | [b1] => [base64Digit (b1 / 4), base64Digit (b1 % 4 * 16), '=', '=']
  | [b1, b2] => [base64Digit (b1 / 4), base64Digit (b1 % 4 * 16 + b2 / 16),
      base64Digit (b2 % 16 * 4), '=']
  | b1 :: b2 :: b3 :: rest =>
    base64Digit (b1 / 4) :: base64Digit (b1 % 4 * 16 + b2 / 16) ::
      base64Digit (b2 % 16 * 4 + b3 / 64) :: base64Digit (b3 % 64) ::
      base64EncodeBytes rest

/-- Byte sequence of a string; every string this code assembles is ASCII, on
which UTF-8 is the identity on code points. -/
def asciiBytes (s : String) : List Nat := s.toList.map Char.toNat

/-- Embedding of `stringArrayToNewLineBase64` (lines 131-134): join the
script lines with newlines and base64-encode the result, as
`new Buffer(arr.join('\n')).toString('base64')` does. -/
def stringArrayToNewLineBase64 (arr : List String) : String :=
  String.mk (base64EncodeBytes (asciiBytes (String.intercalate "\n" arr)))

/-- The `if (auth) ...` block of `getECSContainerInstanceUserData`
(lines 149-155): no auth contributes no lines; an auth object with a truthy
`cfg` goes through `makeDockerAuthCfg`, any other auth object through
`makeDockerAuth`. -/
def ecsUserDataAuthLines (auth : Option DockerAuthObj) : Except String (List String) :=
  match auth with
  | none => .ok []
  | some a =>
    match a.cfg with
    | some cfg => if cfg ≠ "" then makeDockerAuthCfg cfg else makeDockerAuth a
    | none => makeDockerAuth a

/-- Embedding of `getECSContainerInstanceUserData` (lines 143-176) on the
branch where `sshDataOrPath` is an in-memory array of keys (the other branch
loads key files from disk before the same assembly; the claims concern given
key lists).  The script starts with the shell preamble and the cluster-join
directive, then any registry-auth directives, then the SSH-key directives,
and the joined script is base64-encoded. -/
def getECSContainerInstanceUserData (clusterName : String)
    (auth : Option DockerAuthObj) (sshKeys : List String) : Except String String :=
  match ecsUserDataAuthLines auth with
  | .error e => .error e
  | .ok authData =>
    .ok (stringArrayToNewLineBase64
      ((["#!/bin/bash",
         "echo ECS_CLUSTER=" ++ clusterName ++ " >> /etc/ecs/ecs.config;"]
        ++ authData) ++ processSSHKeys sshKeys))

/-- C9: with no registry credentials and no SSH keys the assembled user-data
script is exactly the shell preamble plus the cluster-join directive; with
exactly one SSH key it additionally contains exactly one key-append directive
bracketed by the `mkdir` setup directive and the `chown` directive; and every
resolved result is the base64 encoding of the newline-joined script lines. -/
theorem userData_assembly (clusterName key : String) :
    getECSContainerInstanceUserData clusterName none []
      = .ok (stringArrayToNewLineBase64
          ["#!/bin/bash",
           "echo ECS_CLUSTER=" ++ clusterName ++ " >> /etc/ecs/ecs.config;"])
    ∧ getECSContainerInstanceUserData clusterName none [key]
      = .ok (stringArrayToNewLineBase64
          ["#!/bin/bash",
           "echo ECS_CLUSTER=" ++ clusterName ++ " >> /etc/ecs/ecs.config;",
           SETUP_SSH,
           "echo \"\n" ++ key ++ "\" " ++ OUTPUT_SSH,
           CHOWN_SSH])
    ∧ (∀ (auth : Option DockerAuthObj) (sshKeys : List String) (r : String),
        getECSContainerInstanceUserData clusterName auth sshKeys = .ok r →
        ∃ lines, r = stringArrayToNewLineBase64 lines) := by
  refine ⟨rfl, rfl, ?_⟩
  intro auth sshKeys r h
  unfold getECSContainerInstanceUserData at h
  cases hauth : ecsUserDataAuthLines auth with
  | error e => rw [hauth] at h; cases h
  | ok authData =>
    rw [hauth] at h
    cases h
    exact ⟨_, rfl⟩

/-- Closed witness for C9: the no-auth, no-key script resolves and is the
base64 of some line list. -/
theorem userData_assembly_witness :
    ∃ lines,
      stringArrayToNewLineBase64
          ["#!/bin/bash",
           "echo ECS_CLUSTER=" ++ "c1" ++ " >> /etc/ecs/ecs.config;"]
        = stringArrayToNewLineBase64 lines :=
  (userData_assembly "c1" "k").2.2 none [] _ rfl

/-- Closed witness for C10 at a concrete configuration whose `pr` is the
number `0`. -/
theorem createPr_rejects_pr_zero_witness :
    validateCreatePrConfig
        (some ⟨.str "c1", .str "sg-1", .str "sn-1", .str "proj", .num 0, .undef⟩)
      = .error "Instance requires pr" :=
  createPr_rejects_pr_zero
    ⟨.str "c1", .str "sg-1", .str "sn-1", .str "proj", .num 0, .undef⟩
    (by decide) (by decide) (by decide) (by decide) rfl

/-! ## Composite environment orchestrator (src/aws/deploymentManager.js)

`destroy` (lines 173-197) chains:
`destroyRoutes` -> `destroyEc2` (run from BOTH the success and the failure
branch of the first `.then`) -> `destroyElb` -> `task.destroy` ->
`cluster.destroy` -> `securityGroup.destroyDeployment`.  The last four are
each guarded by a `.fail` handler; `destroyRoutes` failures are absorbed by
the two-branch `.then`; but a rejection of `destroyEc2` itself has no
handler, so it skips every later `.then(onSuccess)` and rejects the
composite destroy.  Inside `destroyEc2` (lines 131-145) only the
`ec2mgr.destroyDeployment` rejection is caught; `cluster.listContainers` and
the deregister `Q.all` are not. -/

inductive Stage
  | dns
  | instances
  | elb
  | taskDef
  | clusterRes
  | sgRes
deriving DecidableEq, Repr

/-- Injected outcomes for the provider calls a composite destroy makes:
`true` means the call resolves, `false` that it rejects (any provider call
can fail, so these are inputs of the model). -/
structure DestroyOutcomes where
  routesOk : Bool
  listContainersOk : Bool
  deregisterOk : Bool
  destroyInstancesOk : Bool
  elbOk : Bool
  taskOk : Bool
  clusterOk : Bool
  sgOk : Bool
deriving DecidableEq, Repr

/-- Embedding of `destroyEc2` (lines 131-145) over injected outcomes:
`listContainers`, then the `Q.all` of deregisters, then
`ec2mgr.destroyDeployment` whose rejection alone is caught (logged). -/
def destroyEc2Run (o : DestroyOutcomes) : Except Unit Unit :=
  if o.listContainersOk then
    if o.deregisterOk then
      .ok ()
    else .error ()
  else .error ()

/-- Embedding of `destroy` (lines 173-197) with a trace of the stages entered
in order.  Stage 1 (`destroyRoutes`) runs first; its outcome is irrelevant
because the following `.then` supplies both an onSuccess and an onFailure
callback, each invoking `destroyEc2`.  A `destroyEc2` rejection has no
handler, so the elb/task/cluster/security-group stages are skipped and the
composite rejects; otherwise those four stages run, each with its own
`.fail` swallow, and the composite resolves. -/
def deploymentDestroyRun (o : DestroyOutcomes) : List Stage × Bool :=
  match destroyEc2Run o with
  | .error _ => ([Stage.dns, Stage.instances], false)
  | .ok _ =>
    ([Stage.dns, Stage.instances, Stage.elb, Stage.taskDef,
      Stage.clusterRes, Stage.sgRes], true)

/-- The stage order asserted by the claim: DNS record, task/service
definition, deregister+instances, load balancer, cluster, security group. -/
def claimedDestroyOrder : List Stage :=
  [Stage.dns, Stage.taskDef, Stage.instances, Stage.elb,
   Stage.clusterRes, Stage.sgRes]

/-- C3 counterexample: on an all-successful run the executed order puts the
task stage fourth, not second, so it differs from the claimed order; and on a
run whose `listContainers` call fails, the later stages (load balancer, task,
cluster, security group) never execute, contradicting the claim that a
failure in one stage does not prevent the later stages. -/
theorem deploymentDestroy_order_counterexample :
    (deploymentDestroyRun ⟨true, true, true, true, true, true, true, true⟩).1
      = [Stage.dns, Stage.instances, Stage.elb, Stage.taskDef,
         Stage.clusterRes, Stage.sgRes]
    ∧ (deploymentDestroyRun ⟨true, true, true, true, true, true, true, true⟩).1
      ≠ claimedDestroyOrder
    ∧ (deploymentDestroyRun ⟨true, false, true, true, true, true, true, true⟩).1
      = [Stage.dns, Stage.instances]
    ∧ Stage.elb ∉
      (deploymentDestroyRun ⟨true, false, true, true, true, true, true, true⟩).1 := by
  exact ⟨rfl, by decide, rfl, by decide⟩

/-- C3 (amended): the stages execute in the order DNS record,
deregister+instances, load balancer, task definition, cluster, security
group; a failure of the DNS stage, of the instance termination itself, or of
any of the four swallowed stages does not prevent the later stages; but a
failure of the `listContainers`/deregister part of the instance stage skips
all later stages and rejects the composite destroy. -/
theorem deploymentDestroy_order (o : DestroyOutcomes) :
    (o.listContainersOk ∧ o.deregisterOk →
      deploymentDestroyRun o
        = ([Stage.dns, Stage.instances, Stage.elb, Stage.taskDef,
            Stage.clusterRes, Stage.sgRes], true))
    ∧ (¬ (o.listContainersOk ∧ o.deregisterOk) →
      deploymentDestroyRun o = ([Stage.dns, Stage.instances], false))
    ∧ (deploymentDestroyRun o).1.take 2 = [Stage.dns, Stage.instances] := by
  cases hl : o.listContainersOk <;> cases hd : o.deregisterOk <;>
    simp_all [deploymentDestroyRun, destroyEc2Run]

/-- Closed witness for C3's amended theorem: with the DNS stage and every
destroy leaf failing but the container listing/deregistration succeeding, all
six stages still execute and the composite resolves. -/
theorem deploymentDestroy_order_witness :
    deploymentDestroyRun ⟨false, true, true, false, false, false, false, false⟩
      = ([Stage.dns, Stage.instances, Stage.elb, Stage.taskDef,
          Stage.clusterRes, Stage.sgRes], true) :=
  (deploymentDestroy_order ⟨false, true, true, false, false, false, false, false⟩).1
    (by decide)

/-! ### Destroy over resource state (claim C2)

Here the same chain is run against the presence/absence of the environment's
resources, with each leaf call behaving deterministically from presence:
destroying or describing a present resource succeeds and removes it, and a
destroy aimed at an absent resource is a NotFound rejection.  The managers
for the cluster, task service, load balancer, security group and DNS zone are
not under src; their absence behaviour is modelled from the spec (§4.4:
every stage treats an absent resource as success at the stage boundary, and
in particular listing containers of an absent cluster resolves empty). -/

structure EnvResources where
  dnsRecord : Bool
  instances : Bool
  containers : Bool
  elbRes : Bool
  taskRes : Bool
  clusterRes : Bool
  sgRes : Bool
deriving DecidableEq, Repr

/-- Modelled from the spec: `clusterManager.listContainers` (clusterManager
is not under src).  Spec §4.4 treats absence as success for the
deregister/instance stage, so listing the container instances of an absent
or empty cluster resolves with the empty list. -/
def listContainersRun (s : EnvResources) : Except Unit (List Unit) :=
  .ok (if s.clusterRes ∧ s.containers then [()] else [])

/-- Embedding of `destroyRoutes` (deploymentManager.js lines 152-159):
describe the deployment's instances, extract the address, destroy the
matching DNS record.  `findIpFromEc2Describe` and the route53 manager are
not under src; modelled from the spec: with no instances there is no address
to extract, and destroying an absent record is a NotFound rejection — the
caller absorbs either outcome. -/
def destroyRoutesRun (s : EnvResources) : EnvResources × Except Unit Unit :=
  if s.instances then
    if s.dnsRecord then ({ s with dnsRecord := false }, .ok ())
    else (s, .error ())
  else (s, .error ())

/-- Embedding of `ec2Manager.destroyDeployment` (ec2Manager.js lines
486-502): rejects when no tagged instances match, otherwise stops and
terminates them. -/
def ec2DestroyDeploymentRun (s : EnvResources) : EnvResources × Except Unit Unit :=
  if s.instances then ({ s with instances := false }, .ok ())
  else (s, .error ())

/-- Embedding of `destroyEc2` (deploymentManager.js lines 131-145) over
resource state: list the cluster's containers, deregister each (modelled from
the spec: deregistering an already-absent container is a success), then
destroy the instances with that rejection caught and logged. -/
def destroyEc2StateRun (s : EnvResources) : EnvResources × Except Unit Unit :=
  match listContainersRun s with
  | .error e => (s, .error e)
  | .ok _ =>
    let s1 : EnvResources := { s with containers := false }
    let r := ec2DestroyDeploymentRun s1
    (r.1, .ok ())

/-- Embedding of `destroy` (lines 173-197) over resource state, per the chain
described above: the elb/task/cluster/security-group destroys each carry a
`.fail` swallow (modelled from the spec for the managers outside src:
destroying a present resource removes it, an absent one rejects NotFound —
swallowed either way), so they always resolve and remove their resource. -/
def deploymentDestroyState (s : EnvResources) : EnvResources × Bool :=
  let r1 := destroyRoutesRun s
  let r2 := destroyEc2StateRun r1.1
  match r2.2 with
  | .error _ => (r2.1, false)
  | .ok _ =>
    let s2 : EnvResources :=
      { r2.1 with elbRes := false, taskRes := false, clusterRes := false, sgRes := false }
    (s2, true)

/-- C2: composite environment destroy is idempotent — for every starting
resource state, running the destroy sequence twice in a row resolves on the
second call (every stage treats absence of its resource as success, so the
second call never throws or rejects). -/
theorem deploymentDestroy_idempotent (s : EnvResources) :
    (deploymentDestroyState (deploymentDestroyState s).1).2 = true
    ∧ (deploymentDestroyState s).2 = true := by
  constructor <;>
    simp [deploymentDestroyState, destroyEc2StateRun, listContainersRun]

/-! ### Create with the load-balancer branch (claim C4) -/

/-- Injected outcomes for the provider calls a composite deployment create
makes. -/
structure CreateOutcomes where
  sgOk : Bool
  clusterOk : Bool
  ec2Ok : Bool
  elbCreateOk : Bool
  cnameOk : Bool
  registerOk : Bool
  healthOk : Bool
  taskOk : Bool
deriving DecidableEq, Repr

/-- Embedding of `createElbEc2` (deploymentManager.js lines 57-72): the OUTER
`Q.all` pairs instance creation with load-balancer creation and has no
failure handler, so a rejection of either rejects the whole call; the INNER
`Q.all` (CNAME record, instance registration, health-check configuration)
resolves to the CNAME result and carries the `.fail(() => undefined)`
fail-over, so only failures inside the inner branch are swallowed, yielding
`undefined` (`none`). -/
def createElbEc2Run (o : CreateOutcomes) : Except Unit (Option String) :=
  if o.ec2Ok ∧ o.elbCreateOk then
    .ok (if o.cnameOk ∧ o.registerOk ∧ o.healthOk then some "cname" else none)
  else .error ()

/-- Embedding of `createCluster` (lines 92-110): `Q.all` of security-group
and cluster creation, then `createElbEc2`, then `task.create` resolving to
the url description.  None of these steps has a failure handler. -/
def createClusterRun (o : CreateOutcomes) : Except Unit (Option String) :=
  if o.sgOk ∧ o.clusterOk then
    match createElbEc2Run o with
    | .error e => .error e
    | .ok urlDesc => if o.taskOk then .ok urlDesc else .error ()
  else .error ()

/-- C4 counterexample: the claim says a failing load-balancer creation is
swallowed and the create still resolves, but with every other call
succeeding and `elb.createDeployment` rejecting, the create call rejects;
by contrast a failing instance registration (inner branch) is indeed
swallowed, resolving with `undefined`. -/
theorem createCluster_elbCreate_not_swallowed :
    createClusterRun ⟨true, true, true, false, true, true, true, true⟩ = .error ()
    ∧ createClusterRun ⟨true, true, true, true, true, false, true, true⟩ = .ok none := by
  exact ⟨rfl, rfl⟩

/-- C4 (amended): failures of the inner load-balancer branch — CNAME
creation, instance registration, health-check configuration — are swallowed:
the create call still resolves, with `undefined` as the sub-step result; but
a failure of the load-balancer creation itself rejects the unguarded outer
`Q.all` and with it the whole create call (as does an instance-creation
failure). -/
theorem createCluster_innerElb_swallowed (o : CreateOutcomes)
    (hsg : o.sgOk = true) (hcl : o.clusterOk = true) (htask : o.taskOk = true)
    (hec2 : o.ec2Ok = true) :
    (o.elbCreateOk = true →
      createClusterRun o
        = .ok (if o.cnameOk ∧ o.registerOk ∧ o.healthOk then some "cname" else none))
    ∧ (o.elbCreateOk = true → ¬ (o.cnameOk ∧ o.registerOk ∧ o.healthOk) →
      createClusterRun o = .ok none)
    ∧ (o.elbCreateOk = false → createClusterRun o = .error ()) := by
  cases helb : o.elbCreateOk <;>
    cases hcn : o.cnameOk <;> cases hrg : o.registerOk <;> cases hhl : o.healthOk <;>
    simp_all [createClusterRun, createElbEc2Run]

/-- Closed witness for C4's amended theorem: health-check configuration
fails, the create resolves with `undefined` as the load-balancer/DNS
sub-result. -/
theorem createCluster_innerElb_swallowed_witness :
    createClusterRun ⟨true, true, true, true, true, true, false, true⟩ = .ok none :=
  (createCluster_innerElb_swallowed ⟨true, true, true, true, true, true, false, true⟩
    rfl rfl rfl rfl).2.1 rfl (by decide)

/-! ## Project orchestrator (src/aws/projectManager.js) -/

structure Ec2Instance where
  Tags : List Tag
deriving DecidableEq, Repr

structure Reservation where
  Instances : List Ec2Instance
deriving DecidableEq, Repr

/-- Embedding of `extractKeys` in `destroyExpiredPRs` (projectManager.js
lines 173-177): map each reservation of the describe result to its
instances' tag lists and flatten one level (`R.unnest`); each tag list then
stands for the object built by `R.reduce(R.assoc)`, read through
`tagObjGet`. -/
def extractKeys (d : List Reservation) : List (List Tag) :=
  (d.map (fun res => res.Instances.map Ec2Instance.Tags)).flatten

/-- Embedding of the `extractDeadPRs` filter (lines 179-181): `R.gt(now)`
applied to the expiry property — a number-against-string comparison, i.e.
`now > Number(value)`, false when the property is missing or not numeric —
AND truthiness of the PR property. -/
def isDeadPR (now : Nat) (m : List Tag) : Bool :=
  (match tagObjGet m EXPIRES_TAG with
    | some v =>
      match jsNum v with
      | some e => decide (e < now)
      | none => false
    | none => false)
  && (match tagObjGet m PR_TAG with
    | some v => v != ""
    | none => false)

/-- Embedding of `mapDestroy`'s argument extraction (lines 183-187): the
`(projectId, pr)` pair handed to `destroyPR` for one dead tag object. -/
def deadPRPair (m : List Tag) : Option String × Option String :=
  (tagObjGet m PROJECT_TAG, tagObjGet m PR_TAG)

/-- Embedding of `destroyExpiredPRs` (lines 170-196): the list of
`(projectId, pr)` pairs on which the PR destroy path is invoked, computed
from the account-wide describe result and the current time. -/
def destroyExpiredPRsTargets (now : Nat) (d : List Reservation) :
    List (Option String × Option String) :=
  ((extractKeys d).filter (isDeadPR now)).map deadPRPair

/-- The claim's selection criterion, stated from the spec's words: the
resource's tags carry a PR tag, and carry an expiry timestamp strictly less
than the current time. -/
def specExpiredPR (now : Nat) (m : List Tag) : Bool :=
  (tagObjGet m PR_TAG).isSome
  && (match tagObjGet m EXPIRES_TAG with
    | some v =>
      match jsNum v with
      | some e => decide (e < now)
      | none => false
    | none => false)

/-- C5: the expiry sweep destroys exactly the resources whose tags carry both
a PR tag and an expiry timestamp strictly below the current time, invoking
the PR destroy path on each one's `(projectId, pr)` pair — so future-expiring
PR resources and deployment (non-PR) resources are untouched.  The
well-formedness hypothesis reflects the data model: a PR tag's value is the
string of a nonnegative integer, never the empty string (the code tests
truthiness of the value where the claim says presence; the two agree on all
non-empty values). -/
theorem destroyExpiredPRs_exact (now : Nat) (d : List Reservation)
    (hwf : ∀ m ∈ extractKeys d, tagObjGet m PR_TAG ≠ some "") :
    destroyExpiredPRsTargets now d
      = ((extractKeys d).filter (specExpiredPR now)).map deadPRPair := by
  unfold destroyExpiredPRsTargets
  congr 1
  apply List.filter_congr
  intro m hm
  have hwfm := hwf m hm
  unfold isDeadPR specExpiredPR
  cases hpr : tagObjGet m PR_TAG with
  | none => simp
  | some v =>
    have hv : v ≠ "" := fun he => hwfm (he ▸ hpr)
    have hbne : (v != "") = true := bne_iff_ne.mpr hv
    simp only [hbne, Option.isSome_some, Bool.and_true, Bool.true_and]

/-- Example data for the sweep, after the spec's own example: PR 7 expired in
the past, PR 8 expiring in the future, plus one deployment instance. -/
def sweepExample : List Reservation :=
  [⟨[⟨[⟨CLUSTERNATOR_TAG, "true"⟩, ⟨PROJECT_TAG, "projA"⟩,
      ⟨PR_TAG, "7"⟩, ⟨EXPIRES_TAG, "9000"⟩]⟩,
     ⟨[⟨CLUSTERNATOR_TAG, "true"⟩, ⟨PROJECT_TAG, "projA"⟩,
      ⟨PR_TAG, "8"⟩, ⟨EXPIRES_TAG, "110000"⟩]⟩]⟩,
   ⟨[⟨[⟨CLUSTERNATOR_TAG, "true"⟩, ⟨PROJECT_TAG, "projA"⟩,
      ⟨DEPLOYMENT_TAG, "master"⟩]⟩]⟩]

/-- Closed witness for C5 at the spec's example and `now = 10000`: only the
expired PR 7 is destroyed, with its `(projectId, pr)` pair. -/
theorem destroyExpiredPRs_exact_witness :
    destroyExpiredPRsTargets 10000 sweepExample
      = ((extractKeys sweepExample).filter (specExpiredPR 10000)).map deadPRPair
    ∧ destroyExpiredPRsTargets 10000 sweepExample = [(some "projA", some "7")] :=
  ⟨destroyExpiredPRs_exact 10000 sweepExample (by decide), by decide⟩

/-! ### Redeploy semantics of `createPR` (claim C6) -/

/-- Embedding of `prExists` (projectManager.js lines 281-294): flatten the
project's described instances to their tag objects, read each object's PR
property, and test whether the given `pr` is among the values
(`R.contains`). -/
def prExists (d : List Reservation) (pr : String) : Bool :=
  ((d.map (fun r => r.Instances.map Ec2Instance.Tags)).flatten.map
    (fun m => tagObjGet m PR_TAG)).contains (some pr)

inductive PMEvent
  | findOrCreate
  | destroyOld
  | createNew
deriving DecidableEq, Repr

/-- Embedding of `createPR` (lines 140-154) as the sequence of operations its
promise chain runs: `findOrCreateProject`, then `prExists`, then — only when
it reported true — `destroyPR`, and only once that step has resolved,
`pullRequest.create`.  Each event is appended only after every earlier
event's operation resolved, so trace order is completion order; a rejected
`destroyPR` would skip `pullRequest.create` entirely. -/
def createPRTrace (d : List Reservation) (pr : String) : List PMEvent :=
  [PMEvent.findOrCreate]
    ++ (if prExists d pr then [PMEvent.destroyOld] else [])
    ++ [PMEvent.createNew]

/-- C6: when tagged resources already exist for `(projectId, pr)` — i.e. some
described instance of the project carries a PR tag equal to `pr` — `createPR`
runs the full destroy for the old resource set and it completes before the
new creation is issued; when none exist, no destroy is invoked. -/
theorem createPR_redeploy_order (d : List Reservation) (pr : String) :
    (prExists d pr = true ↔
      ∃ m ∈ (d.map (fun r => r.Instances.map Ec2Instance.Tags)).flatten,
        tagObjGet m PR_TAG = some pr)
    ∧ (prExists d pr = true →
        createPRTrace d pr
            = [PMEvent.findOrCreate, PMEvent.destroyOld, PMEvent.createNew]
        ∧ (createPRTrace d pr).indexOf PMEvent.destroyOld
            < (createPRTrace d pr).indexOf PMEvent.createNew)
    ∧ (prExists d pr = false → PMEvent.destroyOld ∉ createPRTrace d pr) := by
  refine ⟨?_, ?_, ?_⟩
  · unfold prExists
    rw [show ∀ (l : List (Option String)) (a : Option String),
        (l.contains a = true ↔ a ∈ l) from fun l a => by simp [List.elem_eq_mem],
      List.mem_map]
  · intro h
    unfold createPRTrace
    rw [h]
    exact ⟨rfl, by decide⟩
  · intro h
    unfold createPRTrace
    rw [h]
    decide

/-- Example data for redeploy: the project has one instance tagged PR 7. -/
def redeployExample : List Reservation :=
  [⟨[⟨[⟨CLUSTERNATOR_TAG, "true"⟩, ⟨PROJECT_TAG, "projB"⟩,
      ⟨PR_TAG, "7"⟩, ⟨EXPIRES_TAG, "9000"⟩]⟩]⟩]

/-- Closed witness for C6: creating over existing PR 7 destroys first, and
creating fresh PR 9 never invokes a destroy. -/
theorem createPR_redeploy_order_witness :
    createPRTrace redeployExample "7"
      = [PMEvent.findOrCreate, PMEvent.destroyOld, PMEvent.createNew]
    ∧ PMEvent.destroyOld ∉ createPRTrace redeployExample "9" :=
  ⟨((createPR_redeploy_order redeployExample "7").2.1 (by decide)).1,
   (createPR_redeploy_order redeployExample "9").2.2 (by decide)⟩

/-! ### Project destroy (claim C7)

`projectManager.destroy` (lines 75-87) reads
`state().then((s) => ec2.describeProject(projectId).then((list) => ...))`.
`ec2` there is the raw aws-sdk EC2 client handed to `getProjectManager` (the
same object passed to `Vpc(ec2)` and, in `initState`, to `Ec2(ec2, vpcId)`);
`describeProject` is not an AWS EC2 API action — it exists only on the
ec2Manager wrapper, which `initState` stores as `STATE.ec2Mgr` and which the
rest of the file accesses as `s.ec2Mgr.describeProject`
(`listSSHAbleInstances`, `listDeployments`).  Reading the missing property
yields `undefined` and calling it throws a TypeError inside the `.then`
callback, rejecting the promise before the guard runs. -/

/-- A JavaScript method call through a method table: property lookup by
name; calling a missing property throws `TypeError: <name> is not a
function`. -/
def jsMethodCall
    (methods : List (String × (String → Except String (List Reservation))))
    (name : String) (arg : String) : Except String (List Reservation) :=
  match methods.lookup name with
  | some f => f arg
  | none => .error ("TypeError: " ++ name ++ " is not a function")

inductive ProjectStep
  | envQuery
  | subnetDestroy
  | aclDestroy
deriving DecidableEq, Repr

/-- Embedding of `projectManager.destroy` (lines 75-87) against the client's
method table: call `ec2.describeProject(projectId)`, throw while the
returned list is nonempty, otherwise destroy the subnet and then the ACL.
The trace records which of these steps ran. -/
def projectDestroy
    (ec2methods : List (String × (String → Except String (List Reservation))))
    (projectId : String) : List ProjectStep × Except String Unit :=
  match jsMethodCall ec2methods "describeProject" projectId with
  | .error e => ([], .error e)
  | .ok list =>
    if list.length ≠ 0 then
      ([ProjectStep.envQuery],
        .error "ProjectManager: Cannot destroy project while open pull requests exist")
    else
      ([ProjectStep.envQuery, ProjectStep.subnetDestroy, ProjectStep.aclDestroy],
        .ok ())

/-- The raw aws-sdk EC2 client's method surface as far as this call is
concerned: it offers `describeInstances` (and the other EC2 actions), but no
`describeProject` — that name is an AWS EC2 API action of no kind. -/
def rawAwsEc2Methods : List (String × (String → Except String (List Reservation))) :=
  [("describeInstances", fun _ => .ok [])]

/-- C7 (code bug): even for a project with NO remaining environment
resources — the case where the spec's referential invariant should let the
subnet and ACL be destroyed — `destroy` rejects with a TypeError and never
reaches the guard, the subnet destroy, or the ACL destroy, because it calls
`describeProject` on the raw EC2 client instead of on `s.ec2Mgr`.  With the
intended wiring (a client actually offering `describeProject`), the embedded
chain enforces the claim: a nonempty environment query throws the
cannot-destroy error without touching subnet or ACL, and an empty one
destroys the subnet and then the ACL. -/
theorem projectDestroy_raw_client_bug :
    projectDestroy rawAwsEc2Methods "projA"
      = ([], .error "TypeError: describeProject is not a function")
    ∧ ProjectStep.subnetDestroy ∉ (projectDestroy rawAwsEc2Methods "projA").1
    ∧ projectDestroy
        (("describeProject",
          fun _ => .ok [⟨[⟨[⟨PROJECT_TAG, "projA"⟩]⟩]⟩]) :: rawAwsEc2Methods)
        "projA"
      = ([ProjectStep.envQuery],
        .error "ProjectManager: Cannot destroy project while open pull requests exist")
    ∧ projectDestroy (("describeProject", fun _ => .ok []) :: rawAwsEc2Methods) "projA"
      = ([ProjectStep.envQuery, ProjectStep.subnetDestroy, ProjectStep.aclDestroy],
        .ok ()) := by
  refine ⟨rfl, by decide, rfl, rfl⟩
